import Mathlib

/-!
# Verification of the DeepCode chat page (`ui/chat_page.py`)

A shallow embedding of the chat interface's session-state logic.

The page keeps a per-session state (Streamlit `st.session_state`): a
message list, an optional plan string, a code-generated flag, an optional
archive path, and a conversation stage string. `process_user_input` is a
state transition driven by the stage; `generate_technical_plan` and
`generate_code_from_plan` each make one call into the external
orchestration engine and catch every exception it raises.

External effects are modelled explicitly:
* the two engine calls (`run_chat_planning_agent`,
  `execute_chat_based_planning_pipeline`) and the archive file write are
  oracles of type `Except String _` — `Except.error e` models the call
  raising an exception whose text is `e`;
* the zip archives written to `/tmp` are recorded in a ghost field
  `written` of the state, as `(path, entries)` pairs;
* a ghost counter `external_calls` counts the calls made into the engine;
* `datetime.now().strftime(...)` is an oracle string `timestamp`.

Python's `s.strip().lower()` is rendered as `String.trim`/`String.toLower`,
`s[:n]` as `String.take s n`, and `x or d` on an optional string as
`pyOrStr` (which, like Python truthiness, also replaces the empty string).
-/

namespace ChatPage

/-- One chat message, as stored in `st.session_state.messages`:
a `{"role": ..., "content": ...}` dictionary. -/
structure Message where
  role : String
  content : String
deriving Repr, DecidableEq

/-- The chat-specific part of `st.session_state`, as set up by
`initialize_chat_session_state`, together with two ghost fields:
`written` records every `(path, files)` zip archive written to disk, and
`external_calls` counts calls into the external orchestration engine. -/
structure ChatState where
  messages : List Message
  current_plan : Option String
  code_generated : Bool
  generated_code_path : Option String
  chat_stage : String
  assistant_typing : Bool
  processing : Bool
  written : List (String × List (String × String))
  external_calls : Nat
deriving Repr, DecidableEq

/-- The fresh-session values assigned by `initialize_chat_session_state`
when none of the keys are present yet (ghost fields start empty). -/
def init_chat_state : ChatState :=
  { messages := []
    current_plan := none
    code_generated := false
    generated_code_path := none
    chat_stage := "greeting"
    assistant_typing := false
    processing := false
    written := []
    external_calls := 0 }

/-- The environment of one user turn: the outcomes of the external calls
that turn would make, and the timestamp string. `planAgent` is the outcome
of `run_chat_planning_agent`, `pipeline` the outcome of
`execute_chat_based_planning_pipeline` (its success value of opaque type
`α`), `writeZip` the outcome of writing the archive to `/tmp`, and
`timestamp` the value of `datetime.now().strftime("%Y%m%d_%H%M%S")`. -/
structure Env (α : Type) where
  planAgent : Except String String
  pipeline : Except String α
  writeZip : Except String Unit
  timestamp : String

/-- `add_message`: append a role-tagged message to the chat history. -/
def add_message (st : ChatState) (role content : String) : ChatState :=
  { st with messages := st.messages ++ [⟨role, content⟩] }

/-- Python `x or default` on an optional string: `None` and the empty
string are falsy, so both are replaced by the default. -/
def pyOrStr : Option String → String → String
  | none, d => d
  | some s, d => if s = "" then d else s

/-- The fixed position of a stage in the order
greeting → collecting_requirements → planning → generating; any other
string maps outside the order. -/
def stageIndex (s : String) : Nat :=
  if s = "greeting" then 0
  else if s = "collecting_requirements" then 1
  else if s = "planning" then 2
  else if s = "generating" then 3
  else 4

/-- The shared opening of both plan templates in
`generate_technical_plan`. -/
def plan_header : String :=
  "✅ Thanks for the detailed requirements! I\x27ve analyzed what you\x27re looking to build and here\x27s my technical implementation plan:\n\n## Technical Implementation Plan\n\n"

/-- The shared closing line of both plan templates. -/
def plan_footer : String :=
  "\n\nWhen you\x27re ready to generate the actual code based on this plan, simply type `/code` and I\x27ll create the implementation for you!"

/-- The middle of the fallback plan built in the `except` branch of
`generate_technical_plan`: a canned outline around the first 100
characters of the user's requirements. -/
def fallback_body (user_requirements : String) : String :=
  "**Project Overview:**\n" ++ user_requirements.take 100 ++
  "...\n\n**Implementation Approach:**\n1. **Architecture Design** - Define system components and data flow\n2. **Technology Stack** - Select appropriate frameworks and libraries\n3. **Core Modules** - Break down functionality into manageable components\n4. **API Design** - Define interfaces and data structures\n5. **Testing Strategy** - Plan for quality assurance\n\n**File Structure:**\n```\nproject/\n├── src/\n│   ├── main.py\n│   ├── config/\n│   ├── utils/\n│   └── modules/\n├── tests/\n├── requirements.txt\n└── README.md\n```"

/-- The full fallback plan string of `generate_technical_plan`. -/
def fallback_plan (user_requirements : String) : String :=
  plan_header ++ fallback_body user_requirements ++ plan_footer

/-- The plan string produced by `generate_technical_plan`: the agent's
result wrapped in the chat template on success, the canned fallback on any
exception (the exception object is caught and ignored). -/
def plan_text (planAgent : Except String String)
    (user_requirements : String) : String :=
  match planAgent with
  | Except.ok plan_result => plan_header ++ plan_result ++ plan_footer
  | Except.error _ => fallback_plan user_requirements

/-- `generate_technical_plan`: call `run_chat_planning_agent` (outcome
`planAgent`); on success wrap its result in the chat template, on any
exception fall back to the canned plan built from the first 100 characters
of the requirements. Either way the plan is stored in
`st.session_state.current_plan` and returned. -/
def generate_technical_plan (planAgent : Except String String)
    (user_requirements : String) (st0 : ChatState) : String × ChatState :=
  let plan := plan_text planAgent user_requirements
  (plan, { st0 with external_calls := st0.external_calls + 1,
                    current_plan := some plan })

/-- The `README.md` placeholder written into the archive, templated over
the first 200 characters of the requirements string. -/
def readme_content (user_requirements : String) : String :=
  "# Generated Project\n\nThis project was automatically generated based on your requirements:\n\n## Requirements\n" ++
  user_requirements.take 200 ++
  "...\n\n## File Structure\n- `main.py`: Entry point\n- `requirements.txt`: Dependencies\n- `src/`: Source code directory\n"

/-- The fixed `requirements.txt` placeholder written into the archive. -/
def requirements_content : String :=
  "streamlit>=1.28.0\nnumpy>=1.21.0\npandas>=1.3.0\n"

/-- The fixed `main.py` stub written into the archive. -/
def main_py_content : String :=
  "#!/usr/bin/env python3\n\"\"\"\nMain application entry point\n\"\"\"\n\nimport streamlit as st\n\ndef main():\n    st.title(\"Generated Application\")\n    st.write(\"This application was automatically generated!\")\n    \n    # TODO: Implement your functionality here\n    \nif __name__ == \"__main__\":\n    main()\n"

/-- The `project_files` dictionary of `generate_code_from_plan`, in
insertion order. -/
def project_files (user_requirements : String) : List (String × String) :=
  [("README.md", readme_content user_requirements),
   ("requirements.txt", requirements_content),
   ("main.py", main_py_content)]

/-- The chat reply returned on the success path of
`generate_code_from_plan`. -/
def code_success_response : String :=
  "🎉 Great! I\x27ve generated the code based on your requirements and technical plan.\n\n## What was created:\n- A complete project structure with best practices\n- Main application file with basic implementation\n- Requirements file with necessary dependencies\n- README with project documentation\n\n## Download your code:\n"

/-- The apology prefix returned by the `except` branch of
`generate_code_from_plan`; the exception text is appended to it. -/
def code_error_lead : String :=
  "❌ Sorry, I encountered an error while generating the code: "

/-- `generate_code_from_plan`: set `processing`, take the current plan
(Python `or` default), run `execute_chat_based_planning_pipeline` (outcome
`env.pipeline`; its result is bound but never read), build the placeholder
archive and write it to `/tmp/generated_code_<timestamp>.zip` (outcome
`env.writeZip`), record the path and set `code_generated`. Any exception
from the pipeline call or the file write is caught and turned into an
apology string; the `finally` block clears `processing` on every path. -/
def generate_code_from_plan {α : Type} (env : Env α) (st0 : ChatState) :
    String × ChatState :=
  let st := { st0 with processing := true,
                       external_calls := st0.external_calls + 1 }
  let user_requirements := pyOrStr st.current_plan
      "Generate code based on the technical plan"
  match env.pipeline with
  | Except.error e =>
      (code_error_lead ++ e, { st with processing := false })
  | Except.ok _ =>
      let files := project_files user_requirements
      let zip_path := "/tmp/generated_code_" ++ env.timestamp ++ ".zip"
      match env.writeZip with
      | Except.error e =>
          (code_error_lead ++ e, { st with processing := false })
      | Except.ok _ =>
          (code_success_response,
           { st with written := st.written ++ [(zip_path, files)],
                     generated_code_path := some zip_path,
                     code_generated := true,
                     processing := false })

/-- The assistant reply when leaving the greeting stage. -/
def greeting_response : String :=
  "Thanks for that introduction! Let me ask a few questions to better understand your requirements."

/-- The assistant reply asking for more detail in the
collecting_requirements stage. -/
def more_details_response : String :=
  "I\x27d like to understand your requirements better. Could you provide more details about what you\x27re looking to build?"

/-- The reminder reply in the planning stage when the input is not
`/code`. -/
def planning_reminder : String :=
  "I\x27m still collecting requirements. When you\x27re ready to generate code based on the plan, please type `/code`."

/-- The follow-up reply in the generating stage. -/
def generating_followup : String :=
  "I\x27ve generated the code based on your requirements. You can download it using the link provided above. Is there anything else you\x27d like me to help with?"

/-- `process_user_input`: one user turn. Append the user message, set the
typing indicator, branch on the current stage (greeting advances
unconditionally; collecting_requirements plans when the input exceeds 50
characters; planning generates code exactly on `/code` after
strip/lower; generating answers a canned follow-up), append the assistant
reply, clear the typing indicator. -/
def process_user_input {α : Type} (env : Env α) (user_input : String)
    (st0 : ChatState) : ChatState :=
  let st1 := add_message st0 "user" user_input
  let st2 := { st1 with assistant_typing := true }
  let st3 :=
    if st2.chat_stage = "greeting" then
      add_message { st2 with chat_stage := "collecting_requirements" }
        "assistant" greeting_response
    else if st2.chat_stage = "collecting_requirements" then
      if user_input.length > 50 then
        let res := generate_technical_plan env.planAgent user_input st2
        { add_message res.2 "assistant" res.1 with chat_stage := "planning" }
      else
        add_message st2 "assistant" more_details_response
    else if st2.chat_stage = "planning" then
      if user_input.trim.toLower = "/code" then
        let res := generate_code_from_plan env st2
        { add_message res.2 "assistant" res.1 with chat_stage := "generating" }
      else
        add_message st2 "assistant" planning_reminder
    else if st2.chat_stage = "generating" then
      add_message st2 "assistant" generating_followup
    else st2
  { st3 with assistant_typing := false }

/-! ## Characterization of one turn, stage by stage -/

/-- The default requirements string used when no plan is stored. -/
def default_requirements : String :=
  "Generate code based on the technical plan"

/-- The zip path built from the timestamp oracle. -/
def zip_path_of (timestamp : String) : String :=
  "/tmp/generated_code_" ++ timestamp ++ ".zip"

/-- A sample turn environment in which every external call succeeds. -/
def sampleEnvOk : Env Unit :=
  ⟨Except.ok "the plan", Except.ok (), Except.ok (), "20260101_000000"⟩

/-- A sample turn environment in which every external call raises. -/
def sampleEnvErr : Env Unit :=
  ⟨Except.error "planner down", Except.error "pipeline down",
   Except.error "disk full", "20260101_000000"⟩

/-- A sample session sitting in the planning stage with a stored plan. -/
def planning_state : ChatState :=
  { init_chat_state with chat_stage := "planning",
                         current_plan := some "the plan" }

theorem process_greeting {α : Type} (env : Env α) (input : String)
    (st : ChatState) (h : st.chat_stage = "greeting") :
    process_user_input env input st =
      { st with
        messages := st.messages ++
          [⟨"user", input⟩, ⟨"assistant", greeting_response⟩],
        chat_stage := "collecting_requirements",
        assistant_typing := false } := by
  simp [process_user_input, add_message, h]

theorem process_collecting_long {α : Type} (env : Env α) (input : String)
    (st : ChatState) (h : st.chat_stage = "collecting_requirements")
    (hl : input.length > 50) :
    process_user_input env input st =
      { st with
        messages := st.messages ++
          [⟨"user", input⟩, ⟨"assistant", plan_text env.planAgent input⟩],
        current_plan := some (plan_text env.planAgent input),
        external_calls := st.external_calls + 1,
        chat_stage := "planning",
        assistant_typing := false } := by
  simp [process_user_input, add_message, generate_technical_plan, h, hl]

theorem process_collecting_short {α : Type} (env : Env α) (input : String)
    (st : ChatState) (h : st.chat_stage = "collecting_requirements")
    (hl : ¬ input.length > 50) :
    process_user_input env input st =
      { st with
        messages := st.messages ++
          [⟨"user", input⟩, ⟨"assistant", more_details_response⟩],
        assistant_typing := false } := by
  simp [process_user_input, add_message, h, hl]

theorem process_planning_other {α : Type} (env : Env α) (input : String)
    (st : ChatState) (h : st.chat_stage = "planning")
    (hc : ¬ input.trim.toLower = "/code") :
    process_user_input env input st =
      { st with
        messages := st.messages ++
          [⟨"user", input⟩, ⟨"assistant", planning_reminder⟩],
        assistant_typing := false } := by
  simp [process_user_input, add_message, h, hc]

theorem process_planning_code_perr {α : Type} (env : Env α) (input e : String)
    (st : ChatState) (h : st.chat_stage = "planning")
    (hc : input.trim.toLower = "/code")
    (hp : env.pipeline = Except.error e) :
    process_user_input env input st =
      { st with
        messages := st.messages ++
          [⟨"user", input⟩, ⟨"assistant", code_error_lead ++ e⟩],
        external_calls := st.external_calls + 1,
        processing := false,
        chat_stage := "generating",
        assistant_typing := false } := by
  simp [process_user_input, add_message, generate_code_from_plan, h, hc, hp]

theorem process_planning_code_werr {α : Type} (env : Env α) (input e : String)
    (a : α) (st : ChatState) (h : st.chat_stage = "planning")
    (hc : input.trim.toLower = "/code")
    (hp : env.pipeline = Except.ok a)
    (hw : env.writeZip = Except.error e) :
    process_user_input env input st =
      { st with
        messages := st.messages ++
          [⟨"user", input⟩, ⟨"assistant", code_error_lead ++ e⟩],
        external_calls := st.external_calls + 1,
        processing := false,
        chat_stage := "generating",
        assistant_typing := false } := by
  simp [process_user_input, add_message, generate_code_from_plan, h, hc, hp, hw]

theorem process_planning_code_ok {α : Type} (env : Env α) (input : String)
    (a : α) (st : ChatState) (h : st.chat_stage = "planning")
    (hc : input.trim.toLower = "/code")
    (hp : env.pipeline = Except.ok a)
    (hw : env.writeZip = Except.ok ()) :
    process_user_input env input st =
      { st with
        messages := st.messages ++
          [⟨"user", input⟩, ⟨"assistant", code_success_response⟩],
        written := st.written ++ [(zip_path_of env.timestamp,
          project_files (pyOrStr st.current_plan default_requirements))],
        generated_code_path := some (zip_path_of env.timestamp),
        code_generated := true,
        external_calls := st.external_calls + 1,
        processing := false,
        chat_stage := "generating",
        assistant_typing := false } := by
  simp [process_user_input, add_message, generate_code_from_plan, h, hc, hp,
    hw, zip_path_of, default_requirements]

theorem process_generating {α : Type} (env : Env α) (input : String)
    (st : ChatState) (h : st.chat_stage = "generating") :
    process_user_input env input st =
      { st with
        messages := st.messages ++
          [⟨"user", input⟩, ⟨"assistant", generating_followup⟩],
        assistant_typing := false } := by
  simp [process_user_input, add_message, h]

theorem process_other_stage {α : Type} (env : Env α) (input : String)
    (st : ChatState) (h1 : ¬ st.chat_stage = "greeting")
    (h2 : ¬ st.chat_stage = "collecting_requirements")
    (h3 : ¬ st.chat_stage = "planning")
    (h4 : ¬ st.chat_stage = "generating") :
    process_user_input env input st =
      { st with messages := st.messages ++ [⟨"user", input⟩],
                assistant_typing := false } := by
  simp [process_user_input, add_message, h1, h2, h3, h4]

/-! ## The claims -/

/-- C1: starting from any of the four stages (greeting,
collecting_requirements, planning, generating), `process_user_input`
leaves the stage among those four values and either keeps it or advances
it one step along that order; no call moves the stage backwards. The
initial stage is greeting. -/
theorem stage_values_and_monotone {α : Type} (env : Env α) (input : String)
    (st : ChatState) (h : stageIndex st.chat_stage ≤ 3) :
    stageIndex (process_user_input env input st).chat_stage ≤ 3 ∧
    stageIndex st.chat_stage ≤
      stageIndex (process_user_input env input st).chat_stage ∧
    stageIndex (process_user_input env input st).chat_stage ≤
      stageIndex st.chat_stage + 1 ∧
    init_chat_state.chat_stage = "greeting" := by
  by_cases h1 : st.chat_stage = "greeting"
  · rw [process_greeting env input st h1]
    simp [stageIndex, h1, init_chat_state]
  by_cases h2 : st.chat_stage = "collecting_requirements"
  · by_cases hl : input.length > 50
    · rw [process_collecting_long env input st h2 hl]
      simp [stageIndex, h2, init_chat_state]
    · rw [process_collecting_short env input st h2 hl]
      simp [stageIndex, h2, init_chat_state]
  by_cases h3 : st.chat_stage = "planning"
  · by_cases hc : input.trim.toLower = "/code"
    · rcases hp : env.pipeline with e | a
      · rw [process_planning_code_perr env input e st h3 hc hp]
        simp [stageIndex, h3, init_chat_state]
      · rcases hw : env.writeZip with e | u
        · rw [process_planning_code_werr env input e a st h3 hc hp hw]
          simp [stageIndex, h3, init_chat_state]
        · cases u
          rw [process_planning_code_ok env input a st h3 hc hp hw]
          simp [stageIndex, h3, init_chat_state]
    · rw [process_planning_other env input st h3 hc]
      simp [stageIndex, h3, init_chat_state]
  by_cases h4 : st.chat_stage = "generating"
  · rw [process_generating env input st h4]
    simp [stageIndex, h4, init_chat_state]
  · exfalso
    simp [stageIndex, h1, h2, h3, h4] at h

/-- Witness for C1 at a fresh session and a concrete turn. -/
theorem stage_values_and_monotone_witness :
    stageIndex init_chat_state.chat_stage ≤ 3 ∧
    (stageIndex (process_user_input sampleEnvOk "hello"
        init_chat_state).chat_stage ≤ 3 ∧
     stageIndex init_chat_state.chat_stage ≤
       stageIndex (process_user_input sampleEnvOk "hello"
         init_chat_state).chat_stage ∧
     stageIndex (process_user_input sampleEnvOk "hello"
         init_chat_state).chat_stage ≤
       stageIndex init_chat_state.chat_stage + 1 ∧
     init_chat_state.chat_stage = "greeting") :=
  ⟨by decide,
   stage_values_and_monotone sampleEnvOk "hello" init_chat_state (by decide)⟩

/-- C2: every engine exception is replaced by fixed fallback content.
When `run_chat_planning_agent` raises, `generate_technical_plan` returns
the templated fallback plan (built, via `fallback_plan`, from the first
100 characters of the requirements) and stores it as the current plan;
when the pipeline call or the archive write raises with text `e`,
`generate_code_from_plan` returns the apology string with `e` appended.
Both functions are total, so no exception propagates. -/
theorem engine_exceptions_caught {α : Type} (env : Env α) (e req : String)
    (st st' : ChatState)
    (hfail : env.pipeline = Except.error e ∨
      ((∃ a, env.pipeline = Except.ok a) ∧ env.writeZip = Except.error e)) :
    (generate_technical_plan (Except.error e) req st).1 = fallback_plan req ∧
    ((generate_technical_plan (Except.error e) req st).2).current_plan =
      some (fallback_plan req) ∧
    (generate_code_from_plan env st').1 = code_error_lead ++ e := by
  refine ⟨by simp [generate_technical_plan, plan_text],
          by simp [generate_technical_plan, plan_text], ?_⟩
  rcases hfail with hp | ⟨⟨a, hp⟩, hw⟩
  · simp [generate_code_from_plan, hp]
  · simp [generate_code_from_plan, hp, hw]

/-- Witness for C2 at a concrete all-failing environment. -/
theorem engine_exceptions_caught_witness :
    (sampleEnvErr.pipeline = Except.error "pipeline down" ∨
      ((∃ a, sampleEnvErr.pipeline = Except.ok a) ∧
        sampleEnvErr.writeZip = Except.error "pipeline down")) ∧
    ((generate_technical_plan (Except.error "pipeline down") "make me an app"
        init_chat_state).1 = fallback_plan "make me an app" ∧
     ((generate_technical_plan (Except.error "pipeline down") "make me an app"
        init_chat_state).2).current_plan =
       some (fallback_plan "make me an app") ∧
     (generate_code_from_plan sampleEnvErr planning_state).1 =
       code_error_lead ++ "pipeline down") :=
  ⟨Or.inl rfl,
   engine_exceptions_caught sampleEnvErr "pipeline down" "make me an app"
     init_chat_state planning_state (Or.inl rfl)⟩

/-- C3: in the planning stage the stage advances to generating (and the
pipeline is invoked) exactly when the input, stripped and lowercased,
equals "/code"; on any other input the whole state is unchanged except
that the user message and the fixed reminder are appended (in particular
the stored plan, the code-generated flag and the archive path keep their
values and no external call is made). -/
theorem planning_code_trigger {α : Type} (env : Env α) (input : String)
    (st : ChatState) (h : st.chat_stage = "planning") :
    ((process_user_input env input st).chat_stage = "generating" ↔
      input.trim.toLower = "/code") ∧
    (input.trim.toLower = "/code" →
      (process_user_input env input st).external_calls =
        st.external_calls + 1) ∧
    (¬ input.trim.toLower = "/code" →
      process_user_input env input st =
        { st with
          messages := st.messages ++
            [⟨"user", input⟩, ⟨"assistant", planning_reminder⟩],
          assistant_typing := false }) := by
  by_cases hc : input.trim.toLower = "/code"
  · have hstage : (process_user_input env input st).chat_stage = "generating" ∧
        (process_user_input env input st).external_calls =
          st.external_calls + 1 := by
      rcases hp : env.pipeline with e | a
      · rw [process_planning_code_perr env input e st h hc hp]
        exact ⟨rfl, rfl⟩
      · rcases hw : env.writeZip with e | u
        · rw [process_planning_code_werr env input e a st h hc hp hw]
          exact ⟨rfl, rfl⟩
        · cases u
          rw [process_planning_code_ok env input a st h hc hp hw]
          exact ⟨rfl, rfl⟩
    exact ⟨by simp [hstage.1, hc], fun _ => hstage.2, fun hn => absurd hc hn⟩
  · rw [process_planning_other env input st h hc]
    refine ⟨?_, fun hcc => absurd hcc hc, fun _ => rfl⟩
    simp [h, hc]

/-- Witness for C3 at a concrete planning-stage session. -/
theorem planning_code_trigger_witness :
    planning_state.chat_stage = "planning" ∧
    (((process_user_input sampleEnvOk "/code" planning_state).chat_stage =
        "generating" ↔ "/code".trim.toLower = "/code") ∧
     ("/code".trim.toLower = "/code" →
       (process_user_input sampleEnvOk "/code" planning_state).external_calls =
         planning_state.external_calls + 1) ∧
     (¬ "/code".trim.toLower = "/code" →
       process_user_input sampleEnvOk "/code" planning_state =
         { planning_state with
           messages := planning_state.messages ++
             [⟨"user", "/code"⟩, ⟨"assistant", planning_reminder⟩],
           assistant_typing := false })) :=
  ⟨rfl, planning_code_trigger sampleEnvOk "/code" planning_state rfl⟩

/-- C4: on the success path `generate_code_from_plan` writes exactly one
archive whose entries are, in order, README.md, requirements.txt and
main.py (the templated README, the fixed dependency list and the fixed
stub entry point), at the path `/tmp/generated_code_<timestamp>.zip`,
which depends on nothing but the timestamp; that path is stored for
download. -/
theorem archive_layout {α : Type} (env : Env α) (a : α) (st : ChatState)
    (hp : env.pipeline = Except.ok a) (hw : env.writeZip = Except.ok ()) :
    ((generate_code_from_plan env st).2).written =
      st.written ++ [(zip_path_of env.timestamp,
        project_files (pyOrStr st.current_plan default_requirements))] ∧
    (project_files (pyOrStr st.current_plan default_requirements)).map
        Prod.fst = ["README.md", "requirements.txt", "main.py"] ∧
    (project_files (pyOrStr st.current_plan default_requirements)).map
        Prod.snd =
      [readme_content (pyOrStr st.current_plan default_requirements),
       requirements_content, main_py_content] ∧
    zip_path_of env.timestamp =
      "/tmp/generated_code_" ++ env.timestamp ++ ".zip" ∧
    ((generate_code_from_plan env st).2).generated_code_path =
      some (zip_path_of env.timestamp) := by
  refine ⟨?_, by simp [project_files], by simp [project_files], rfl, ?_⟩ <;>
    simp [generate_code_from_plan, hp, hw, zip_path_of, default_requirements]

/-- Witness for C4 at a concrete all-success environment. -/
theorem archive_layout_witness :
    sampleEnvOk.pipeline = Except.ok () ∧ sampleEnvOk.writeZip = Except.ok () ∧
    (((generate_code_from_plan sampleEnvOk planning_state).2).written =
      planning_state.written ++ [(zip_path_of sampleEnvOk.timestamp,
        project_files (pyOrStr planning_state.current_plan
          default_requirements))] ∧
     (project_files (pyOrStr planning_state.current_plan
         default_requirements)).map Prod.fst =
       ["README.md", "requirements.txt", "main.py"] ∧
     (project_files (pyOrStr planning_state.current_plan
         default_requirements)).map Prod.snd =
       [readme_content (pyOrStr planning_state.current_plan
          default_requirements),
        requirements_content, main_py_content] ∧
     zip_path_of sampleEnvOk.timestamp =
       "/tmp/generated_code_" ++ sampleEnvOk.timestamp ++ ".zip" ∧
     ((generate_code_from_plan sampleEnvOk planning_state).2).generated_code_path =
       some (zip_path_of sampleEnvOk.timestamp)) :=
  ⟨rfl, rfl, archive_layout sampleEnvOk () planning_state rfl rfl⟩

/-- C5: `generate_technical_plan` always stores the exact string it
returns in `current_plan` (both branches); `generate_code_from_plan`
never changes `current_plan`; and a turn of `process_user_input` leaves
`current_plan` unchanged except in the collecting_requirements stage with
an input longer than 50 characters, where it becomes precisely the plan
produced by `generate_technical_plan`. -/
theorem plan_storage_frame {α : Type} (env : Env α)
    (p : Except String String) (r input : String)
    (st st1 st2 : ChatState) :
    ((generate_technical_plan p r st).2).current_plan =
      some (generate_technical_plan p r st).1 ∧
    ((generate_code_from_plan env st1).2).current_plan = st1.current_plan ∧
    ((process_user_input env input st2).current_plan = st2.current_plan ∨
      (st2.chat_stage = "collecting_requirements" ∧ input.length > 50 ∧
       (process_user_input env input st2).current_plan =
         some (plan_text env.planAgent input))) := by
  refine ⟨by simp [generate_technical_plan], ?_, ?_⟩
  · rcases hp : env.pipeline with e | a
    · simp [generate_code_from_plan, hp]
    · rcases hw : env.writeZip with e | u
      · simp [generate_code_from_plan, hp, hw]
      · cases u; simp [generate_code_from_plan, hp, hw]
  · by_cases h1 : st2.chat_stage = "greeting"
    · rw [process_greeting env input st2 h1]; left; rfl
    by_cases h2 : st2.chat_stage = "collecting_requirements"
    · by_cases hl : input.length > 50
      · right
        rw [process_collecting_long env input st2 h2 hl]
        exact ⟨h2, hl, rfl⟩
      · rw [process_collecting_short env input st2 h2 hl]; left; rfl
    by_cases h3 : st2.chat_stage = "planning"
    · by_cases hc : input.trim.toLower = "/code"
      · left
        rcases hp : env.pipeline with e | a
        · rw [process_planning_code_perr env input e st2 h3 hc hp]
        · rcases hw : env.writeZip with e | u
          · rw [process_planning_code_werr env input e a st2 h3 hc hp hw]
          · cases u; rw [process_planning_code_ok env input a st2 h3 hc hp hw]
      · rw [process_planning_other env input st2 h3 hc]; left; rfl
    by_cases h4 : st2.chat_stage = "generating"
    · rw [process_generating env input st2 h4]; left; rfl
    · rw [process_other_stage env input st2 h1 h2 h3 h4]; left; rfl

/-- C6: the value returned by the pipeline call is never inspected:
replacing one non-exceptional pipeline result by any other (even of a
different type) leaves the reply string, the written archive and the
whole resulting session state of `generate_code_from_plan` unchanged. -/
theorem pipeline_result_noninterference {α β : Type} (a : α) (b : β)
    (pa : Except String String) (w : Except String Unit) (ts : String)
    (st : ChatState) :
    generate_code_from_plan ⟨pa, Except.ok a, w, ts⟩ st =
      generate_code_from_plan ⟨pa, Except.ok b, w, ts⟩ st := by
  cases w <;> simp [generate_code_from_plan]

/-- Counterexample to C7 as stated: a turn taken in the greeting stage
makes no external call at all, so it is not the case that every
invocation of `process_user_input` performs exactly one engine call. -/
theorem one_call_per_turn_counterexample :
    ¬ ((process_user_input sampleEnvOk "hello" init_chat_state).external_calls =
        init_chat_state.external_calls + 1) := by decide

/-- C7 (amended): every turn of `process_user_input` makes at most one
call into the external engine, and it makes exactly one precisely when
the stage is collecting_requirements with an input longer than 50
characters (one `run_chat_planning_agent` call) or the stage is planning
with stripped, lowercased input "/code" (one
`execute_chat_based_planning_pipeline` call); on every other turn it
makes none. -/
theorem at_most_one_call_per_turn {α : Type} (env : Env α) (input : String)
    (st : ChatState) :
    ((process_user_input env input st).external_calls = st.external_calls ∨
     (process_user_input env input st).external_calls =
       st.external_calls + 1) ∧
    ((process_user_input env input st).external_calls =
        st.external_calls + 1 ↔
      ((st.chat_stage = "collecting_requirements" ∧ input.length > 50) ∨
       (st.chat_stage = "planning" ∧ input.trim.toLower = "/code"))) := by
  by_cases h1 : st.chat_stage = "greeting"
  · rw [process_greeting env input st h1]
    simp [h1]
  by_cases h2 : st.chat_stage = "collecting_requirements"
  · by_cases hl : input.length > 50
    · rw [process_collecting_long env input st h2 hl]
      simp [h2, hl]
    · rw [process_collecting_short env input st h2 hl]
      simp [h2, hl]
  by_cases h3 : st.chat_stage = "planning"
  · by_cases hc : input.trim.toLower = "/code"
    · have hcalls : (process_user_input env input st).external_calls =
          st.external_calls + 1 := by
        rcases hp : env.pipeline with e | a
        · rw [process_planning_code_perr env input e st h3 hc hp]
        · rcases hw : env.writeZip with e | u
          · rw [process_planning_code_werr env input e a st h3 hc hp hw]
          · cases u; rw [process_planning_code_ok env input a st h3 hc hp hw]
      rw [hcalls]
      simp [h2, h3, hc]
    · rw [process_planning_other env input st h3 hc]
      simp [h2, h3, hc]
  by_cases h4 : st.chat_stage = "generating"
  · rw [process_generating env input st h4]
    simp [h2, h3]
  · rw [process_other_stage env input st h1 h2 h3 h4]
    simp [h2, h3]

/-- C8: whenever the stage is planning or generating the stored plan is
present. The invariant holds in the fresh session state and is preserved
by every turn: the stage only reaches planning through
`generate_technical_plan`, both branches of which store a plan. -/
theorem plan_present_in_late_stages {α : Type} (env : Env α) (input : String)
    (st : ChatState)
    (h : (st.chat_stage = "planning" ∨ st.chat_stage = "generating") →
         st.current_plan.isSome) :
    (((process_user_input env input st).chat_stage = "planning" ∨
       (process_user_input env input st).chat_stage = "generating") →
      (process_user_input env input st).current_plan.isSome) ∧
    ((init_chat_state.chat_stage = "planning" ∨
       init_chat_state.chat_stage = "generating") →
      init_chat_state.current_plan.isSome) := by
  refine ⟨?_, by decide⟩
  by_cases h1 : st.chat_stage = "greeting"
  · rw [process_greeting env input st h1]; simp
  by_cases h2 : st.chat_stage = "collecting_requirements"
  · by_cases hl : input.length > 50
    · rw [process_collecting_long env input st h2 hl]; simp
    · rw [process_collecting_short env input st h2 hl]; simp [h2]
  by_cases h3 : st.chat_stage = "planning"
  · by_cases hc : input.trim.toLower = "/code"
    · rcases hp : env.pipeline with e | a
      · rw [process_planning_code_perr env input e st h3 hc hp]
        exact fun _ => h (Or.inl h3)
      · rcases hw : env.writeZip with e | u
        · rw [process_planning_code_werr env input e a st h3 hc hp hw]
          exact fun _ => h (Or.inl h3)
        · cases u
          rw [process_planning_code_ok env input a st h3 hc hp hw]
          exact fun _ => h (Or.inl h3)
    · rw [process_planning_other env input st h3 hc]
      exact fun _ => h (Or.inl h3)
  by_cases h4 : st.chat_stage = "generating"
  · rw [process_generating env input st h4]
    exact fun _ => h (Or.inr h4)
  · rw [process_other_stage env input st h1 h2 h3 h4]
    exact fun hcase => hcase.elim (fun hh => absurd hh h3)
      (fun hh => absurd hh h4)

/-- Witness for C8 at a concrete planning-stage session. -/
theorem plan_present_in_late_stages_witness :
    ((planning_state.chat_stage = "planning" ∨
       planning_state.chat_stage = "generating") →
      planning_state.current_plan.isSome) ∧
    ((((process_user_input sampleEnvOk "hi" planning_state).chat_stage =
          "planning" ∨
       (process_user_input sampleEnvOk "hi" planning_state).chat_stage =
          "generating") →
      (process_user_input sampleEnvOk "hi" planning_state).current_plan.isSome) ∧
     ((init_chat_state.chat_stage = "planning" ∨
        init_chat_state.chat_stage = "generating") →
       init_chat_state.current_plan.isSome)) :=
  ⟨by decide,
   plan_present_in_late_stages sampleEnvOk "hi" planning_state (by decide)⟩

/-- C9: the flag `code_generated` and the path `generated_code_path` stay
consistent — the flag is set exactly when a path is stored. The invariant
holds initially (false, None) and is preserved by every turn: only the
success path of `generate_code_from_plan` touches either field, and it
assigns both together. -/
theorem flag_path_consistent {α : Type} (env : Env α) (input : String)
    (st : ChatState)
    (h : st.code_generated = true ↔ st.generated_code_path.isSome) :
    ((process_user_input env input st).code_generated = true ↔
      (process_user_input env input st).generated_code_path.isSome) ∧
    (init_chat_state.code_generated = true ↔
      init_chat_state.generated_code_path.isSome) := by
  refine ⟨?_, by decide⟩
  by_cases h1 : st.chat_stage = "greeting"
  · rw [process_greeting env input st h1]; exact h
  by_cases h2 : st.chat_stage = "collecting_requirements"
  · by_cases hl : input.length > 50
    · rw [process_collecting_long env input st h2 hl]; exact h
    · rw [process_collecting_short env input st h2 hl]; exact h
  by_cases h3 : st.chat_stage = "planning"
  · by_cases hc : input.trim.toLower = "/code"
    · rcases hp : env.pipeline with e | a
      · rw [process_planning_code_perr env input e st h3 hc hp]; exact h
      · rcases hw : env.writeZip with e | u
        · rw [process_planning_code_werr env input e a st h3 hc hp hw]
          exact h
        · cases u
          rw [process_planning_code_ok env input a st h3 hc hp hw]
          simp
    · rw [process_planning_other env input st h3 hc]; exact h
  by_cases h4 : st.chat_stage = "generating"
  · rw [process_generating env input st h4]; exact h
  · rw [process_other_stage env input st h1 h2 h3 h4]; exact h

/-- Witness for C9 at a fresh session. -/
theorem flag_path_consistent_witness :
    (init_chat_state.code_generated = true ↔
      init_chat_state.generated_code_path.isSome) ∧
    (((process_user_input sampleEnvOk "hello" init_chat_state).code_generated =
        true ↔
      (process_user_input sampleEnvOk "hello"
        init_chat_state).generated_code_path.isSome) ∧
     (init_chat_state.code_generated = true ↔
       init_chat_state.generated_code_path.isSome)) :=
  ⟨by decide,
   flag_path_consistent sampleEnvOk "hello" init_chat_state (by decide)⟩

/-- C10: from any of the four stages, a turn appends exactly one user
message (the submitted text) followed by exactly one assistant message,
preserving every existing entry in place; and neither
`generate_technical_plan` nor `generate_code_from_plan` touches the
message list at all. -/
theorem messages_append_two {α : Type} (env : Env α) (input : String)
    (st : ChatState) (h : stageIndex st.chat_stage ≤ 3) :
    (∃ reply : String,
      (process_user_input env input st).messages =
        st.messages ++ [⟨"user", input⟩, ⟨"assistant", reply⟩]) ∧
    (∀ (p : Except String String) (r : String) (st1 : ChatState),
      ((generate_technical_plan p r st1).2).messages = st1.messages) ∧
    (∀ st2 : ChatState,
      ((generate_code_from_plan env st2).2).messages = st2.messages) := by
  refine ⟨?_, fun p r st1 => by simp [generate_technical_plan],
          fun st2 => ?_⟩
  · by_cases h1 : st.chat_stage = "greeting"
    · exact ⟨greeting_response, by simp [process_greeting env input st h1]⟩
    by_cases h2 : st.chat_stage = "collecting_requirements"
    · by_cases hl : input.length > 50
      · exact ⟨plan_text env.planAgent input,
          by simp [process_collecting_long env input st h2 hl]⟩
      · exact ⟨more_details_response,
          by simp [process_collecting_short env input st h2 hl]⟩
    by_cases h3 : st.chat_stage = "planning"
    · by_cases hc : input.trim.toLower = "/code"
      · rcases hp : env.pipeline with e | a
        · exact ⟨code_error_lead ++ e,
            by simp [process_planning_code_perr env input e st h3 hc hp]⟩
        · rcases hw : env.writeZip with e | u
          · exact ⟨code_error_lead ++ e,
              by simp [process_planning_code_werr env input e a st h3 hc hp hw]⟩
          · cases u
            exact ⟨code_success_response,
              by simp [process_planning_code_ok env input a st h3 hc hp hw]⟩
      · exact ⟨planning_reminder,
          by simp [process_planning_other env input st h3 hc]⟩
    by_cases h4 : st.chat_stage = "generating"
    · exact ⟨generating_followup,
        by simp [process_generating env input st h4]⟩
    · exfalso; simp [stageIndex, h1, h2, h3, h4] at h
  · rcases hp : env.pipeline with e | a
    · simp [generate_code_from_plan, hp]
    · rcases hw : env.writeZip with e | u
      · simp [generate_code_from_plan, hp, hw]
      · cases u; simp [generate_code_from_plan, hp, hw]

/-- Witness for C10 at a fresh session and a concrete turn. -/
theorem messages_append_two_witness :
    stageIndex init_chat_state.chat_stage ≤ 3 ∧
    ((∃ reply : String,
       (process_user_input sampleEnvOk "hello" init_chat_state).messages =
         init_chat_state.messages ++
           [⟨"user", "hello"⟩, ⟨"assistant", reply⟩]) ∧
     (∀ (p : Except String String) (r : String) (st1 : ChatState),
       ((generate_technical_plan p r st1).2).messages = st1.messages) ∧
     (∀ st2 : ChatState,
       ((generate_code_from_plan sampleEnvOk st2).2).messages =
         st2.messages)) :=
  ⟨by decide,
   messages_append_two sampleEnvOk "hello" init_chat_state (by decide)⟩

end ChatPage
